import Mathlib

/-!
Verification of the capacitor-passkeys plugin against its specification.

The repository bridges WebAuthn passkey ceremonies across three platform
adapters: the browser adapter (src/src/web.ts), the iOS adapter
(src/ios/Sources/PasskeysPlugin/PasskeysPlugin.swift) and the Android
adapter (unnamed Kotlin source, Credential Manager based).

This file shallowly embeds the data model and operations of those three
adapters: JS strings are lists of characters (wrapped in `String` where the
sources hold strings), binary buffers (`ArrayBuffer`, `Data`, `ByteArray`)
are lists of naturals below 256, JS/Swift/Kotlin optionals are `Option`,
thrown exceptions and failed decodes are `Option`/outcome constructors, and
the iOS delegate callbacks are a small transition function over the plugin
instance state together with an ordered trace of observable actions.
-/

set_option autoImplicit false

namespace Passkeys

/-! ### Base64 / base64url codec

Both web.ts (`base64UrlToArrayBuffer` / `arrayBufferToBase64Url`, built on
`atob` / `btoa`) and the iOS plugin (`base64UrlDecode` / `base64UrlEncode`,
built on `Data(base64Encoded:)` / `base64EncodedString()`) implement the
same scheme: translate between the URL-safe and the standard base64
alphabet, add or strip `=` padding, and run a standard base64 codec.
-/

/-- The standard base64 alphabet, in index order. -/
def stdAlphabet : List Char :=
  ['A','B','C','D','E','F','G','H','I','J','K','L','M',
   'N','O','P','Q','R','S','T','U','V','W','X','Y','Z',
   'a','b','c','d','e','f','g','h','i','j','k','l','m',
   'n','o','p','q','r','s','t','u','v','w','x','y','z',
   '0','1','2','3','4','5','6','7','8','9','+','/']

/-- Character of a six-bit group (out-of-range indices cannot occur for
byte input; the default is arbitrary). -/
def encChar (n : Nat) : Char := stdAlphabet.getD n 'A'

/-- Index of a character in a character list. -/
def charIdx (c : Char) : List Char → Option Nat
  | [] => none
  | a :: rest => if a = c then some 0 else (charIdx c rest).map (· + 1)

/-- Six-bit value of a standard-alphabet base64 character; `none` for any
character outside the alphabet (including `=`). -/
def decChar (c : Char) : Option Nat := charIdx c stdAlphabet

/-- Replacement `+`→`-`, `/`→`_` applied per character by the encoders. -/
def stdToUrlChar (c : Char) : Char :=
  if c = '+' then '-' else if c = '/' then '_' else c

/-- Replacement `-`→`+`, `_`→`/` applied per character by the decoders. -/
def urlToStdChar (c : Char) : Char :=
  if c = '-' then '+' else if c = '_' then '/' else c

/-- Split bytes into six-bit groups, standard base64 bit layout
(big-endian within each 24-bit chunk). -/
def bytesToSextets : List Nat → List Nat
  | [] => []
  | [b1] => [b1 / 4, b1 % 4 * 16]
  | [b1, b2] => [b1 / 4, b1 % 4 * 16 + b2 / 16, b2 % 16 * 4]
  | b1 :: b2 :: b3 :: rest =>
      b1 / 4 :: (b1 % 4 * 16 + b2 / 16) :: (b2 % 16 * 4 + b3 / 64) ::
        b3 % 64 :: bytesToSextets rest

/-- Reassemble bytes from six-bit groups.  A trailing group of two or three
sextets yields one or two bytes, the bits beyond the byte boundary being
discarded (the behaviour of both `atob` and Foundation's decoder); a lone
trailing sextet cannot reach this function because the decoders reject
input of length 1 mod 4 beforehand. -/
def sextetsToBytes : List Nat → List Nat
  | [] => []
  | [_] => []
  | [s1, s2] => [s1 * 4 + s2 / 16]
  | [s1, s2, s3] => [s1 * 4 + s2 / 16, s2 % 16 * 16 + s3 / 4]
  | s1 :: s2 :: s3 :: s4 :: rest =>
      (s1 * 4 + s2 / 16) :: (s2 % 16 * 16 + s3 / 4) :: (s3 % 4 * 64 + s4) ::
        sextetsToBytes rest

/-- Number of `=` padding characters a standard base64 encoder appends for
an input of `n` bytes. -/
def base64PadCount (n : Nat) : Nat :=
  match n % 3 with
  | 1 => 2
  | 2 => 1
  | _ => 0

/-- Standard base64 encoding with padding: `btoa` on the byte string in
web.ts, `Data.base64EncodedString()` on iOS. -/
def btoaChars (bytes : List Nat) : List Char :=
  (bytesToSextets bytes).map encChar ++
    List.replicate (base64PadCount bytes.length) '='

/-- Decode every character of a candidate base64 body; `none` as soon as
one character is outside the standard alphabet. -/
def decodeChars : List Char → Option (List Nat)
  | [] => some []
  | c :: rest =>
      match decChar c, decodeChars rest with
      | some n, some ns => some (n :: ns)
      | _, _ => none

/-- Strip every trailing `=` (the encoders' final replace of `=` by the
empty string; `=` only ever occurs as trailing padding in their input). -/
def stripTrailingEq (s : List Char) : List Char :=
  (s.reverse.dropWhile (fun c => c = '=')).reverse

/-- Strip at most two trailing `=` characters, the padding-removal step of
both `atob` (forgiving-base64) and Foundation's base64 decoder. -/
def stripAtMost2Eq (s : List Char) : List Char :=
  if s.reverse.take 2 = ['=', '='] then (s.reverse.drop 2).reverse
  else if s.reverse.take 1 = ['='] then (s.reverse.drop 1).reverse
  else s

/-- Padding-removal step of `atob` (WHATWG forgiving-base64 decode): when
the length is a multiple of 4, up to two trailing `=` are removed. -/
def atobStripPad (s : List Char) : List Char :=
  if s.length % 4 = 0 then stripAtMost2Eq s else s

/-- Model of the browser's `atob` (WHATWG forgiving-base64 decode): after
padding removal, a remaining length of 1 mod 4 is an error; every
remaining character must be in the standard alphabet; trailing bits beyond
the final byte boundary are discarded. -/
def atobChars (s : List Char) : Option (List Nat) :=
  if (atobStripPad s).length % 4 = 1 then none
  else (decodeChars (atobStripPad s)).map sextetsToBytes

/-- The `'='.repeat((4 - base64.length % 4) % 4)` padding step of web.ts
`base64UrlToArrayBuffer`. -/
def base64UrlPad (base64 : List Char) : List Char :=
  base64 ++ List.replicate ((4 - base64.length % 4) % 4) '='

/-- web.ts `base64UrlToArrayBuffer`: URL alphabet to standard alphabet,
pad with `=` to a multiple of 4, then `atob`.  `none` models the thrown
`InvalidCharacterError`. -/
def base64UrlToArrayBuffer (s : List Char) : Option (List Nat) :=
  atobChars (base64UrlPad (s.map urlToStdChar))

/-- web.ts `arrayBufferToBase64Url`: `btoa`, then standard alphabet to URL
alphabet, then strip the trailing `=` padding. -/
def arrayBufferToBase64Url (bytes : List Nat) : List Char :=
  stripTrailingEq ((btoaChars bytes).map stdToUrlChar)

/-- Model of Foundation's `Data(base64Encoded:)`: the length must be a
multiple of 4, up to two trailing `=` are removed, every remaining
character must be in the standard alphabet. -/
def dataBase64Decode (s : List Char) : Option (List Nat) :=
  if s.length % 4 = 0 then
    if (stripAtMost2Eq s).length % 4 = 1 then none
    else (decodeChars (stripAtMost2Eq s)).map sextetsToBytes
  else none

/-- Padding step of iOS `base64UrlDecode`: when `base64.count % 4` leaves
a remainder, append `4 - remainder` copies of `=`. -/
def iosBase64UrlPad (base64 : List Char) : List Char :=
  if base64.length % 4 > 0 then
    base64 ++ List.replicate (4 - base64.length % 4) '='
  else base64

/-- iOS `base64UrlDecode`: URL alphabet to standard alphabet, pad with `=`
when the length is not a multiple of 4, then `Data(base64Encoded:)`. -/
def iosBase64UrlDecode (s : String) : Option (List Nat) :=
  dataBase64Decode (iosBase64UrlPad (s.data.map urlToStdChar))

/-- iOS `base64UrlEncode`: `base64EncodedString()`, replace `+`→`-`,
`/`→`_`, and remove the `=` characters (which are all trailing). -/
def iosBase64UrlEncode (d : List Nat) : String :=
  String.mk (stripTrailingEq ((btoaChars d).map stdToUrlChar))

/-! ### Shared request/result types (src/src/definitions.ts)

Union string types (`'platform' | 'cross-platform'` and the like) are
modelled as `String`; optional fields as `Option`. -/

/-- definitions.ts `PublicKeyCredentialParameters`. -/
structure PublicKeyCredentialParameters where
  type : String
  alg : Int
  deriving DecidableEq, Repr

/-- definitions.ts `AuthenticatorSelectionCriteria`: all three sub-fields
optional. -/
structure AuthenticatorSelectionCriteria where
  authenticatorAttachment : Option String := none
  residentKey : Option String := none
  userVerification : Option String := none
  deriving DecidableEq, Repr

/-- definitions.ts `PublicKeyCredentialDescriptor` (`allowCredentials`
entries). -/
structure PublicKeyCredentialDescriptor where
  type : String
  id : String
  transports : Option (List String) := none
  deriving DecidableEq, Repr

/-- definitions.ts `CreatePasskeyOptions.rp`. -/
structure RpEntity where
  id : String
  name : String
  deriving DecidableEq, Repr

/-- definitions.ts `CreatePasskeyOptions.user`. -/
structure UserEntity where
  id : String
  name : String
  displayName : String
  deriving DecidableEq, Repr

/-- definitions.ts `CreatePasskeyOptions`. -/
structure CreatePasskeyOptions where
  challenge : String
  rp : RpEntity
  user : UserEntity
  pubKeyCredParams : Option (List PublicKeyCredentialParameters) := none
  timeout : Option Int := none
  authenticatorSelection : Option AuthenticatorSelectionCriteria := none
  attestation : Option String := none
  deriving DecidableEq, Repr

/-- definitions.ts `GetPasskeyOptions`. -/
structure GetPasskeyOptions where
  challenge : String
  rpId : String
  allowCredentials : Option (List PublicKeyCredentialDescriptor) := none
  timeout : Option Int := none
  userVerification : Option String := none
  deriving DecidableEq, Repr

/-! ### Web adapter (src/src/web.ts) -/

/-- DOM `PublicKeyCredentialUserEntity` after conversion: `user.id` decoded
to bytes. -/
structure WebUserEntity where
  id : List Nat
  name : String
  displayName : String
  deriving DecidableEq, Repr

/-- DOM `PublicKeyCredentialCreationOptions` as web.ts builds it.  The DOM
`attestation` field is optional, hence `Option String`; web.ts always
assigns it (see `toPublicKeyCredentialCreationOptions`). -/
structure WebCreationOptions where
  challenge : List Nat
  rp : RpEntity
  user : WebUserEntity
  pubKeyCredParams : List PublicKeyCredentialParameters
  timeout : Option Int
  authenticatorSelection : AuthenticatorSelectionCriteria
  attestation : Option String
  deriving DecidableEq, Repr

/-- DOM descriptor with decoded credential id. -/
structure WebDescriptor where
  type : String
  id : List Nat
  transports : Option (List String)
  deriving DecidableEq, Repr

/-- DOM `PublicKeyCredentialRequestOptions` as web.ts builds it. -/
structure WebRequestOptions where
  challenge : List Nat
  rpId : String
  timeout : Option Int
  userVerification : String
  allowCredentials : Option (List WebDescriptor) := none
  deriving DecidableEq, Repr

/-- web.ts `toPublicKeyCredentialCreationOptions`.  `none` models the
exception thrown by `base64UrlToArrayBuffer` (atob) escaping the method;
otherwise the built options object.  Note `attestation: options.attestation
?? 'none'` and `authenticatorSelection: options.authenticatorSelection ??
{platform, required, required}`. -/
def toPublicKeyCredentialCreationOptions (options : CreatePasskeyOptions) :
    Option WebCreationOptions :=
  match base64UrlToArrayBuffer options.challenge.data,
      base64UrlToArrayBuffer options.user.id.data with
  | some challengeBytes, some userIdBytes =>
      some
        { challenge := challengeBytes
          rp := { id := options.rp.id, name := options.rp.name }
          user :=
            { id := userIdBytes
              name := options.user.name
              displayName := options.user.displayName }
          pubKeyCredParams :=
            options.pubKeyCredParams.getD
              [{ type := "public-key", alg := -7 },
               { type := "public-key", alg := -257 }]
          timeout := options.timeout
          authenticatorSelection :=
            options.authenticatorSelection.getD
              { authenticatorAttachment := some "platform"
                residentKey := some "required"
                userVerification := some "required" }
          attestation := some (options.attestation.getD "none") }
  | _, _ => none

/-- Decode one `allowCredentials` entry (web.ts maps each entry, decoding
its id; a decode failure is a thrown exception, modelled by `none`). -/
def webDescriptorOfEntry (cred : PublicKeyCredentialDescriptor) :
    Option WebDescriptor :=
  (base64UrlToArrayBuffer cred.id.data).map fun idBytes =>
    { type := cred.type, id := idBytes, transports := cred.transports }

/-- Option-valued `List.mapM` for descriptor lists. -/
def webDescriptorsOf : List PublicKeyCredentialDescriptor →
    Option (List WebDescriptor)
  | [] => some []
  | cred :: rest =>
      match webDescriptorOfEntry cred, webDescriptorsOf rest with
      | some d, some ds => some (d :: ds)
      | _, _ => none

/-- web.ts `toPublicKeyCredentialRequestOptions`.  `allowCredentials` is
attached only when the caller supplied a non-empty list
(`options.allowCredentials && options.allowCredentials.length > 0`). -/
def toPublicKeyCredentialRequestOptions (options : GetPasskeyOptions) :
    Option WebRequestOptions :=
  match base64UrlToArrayBuffer options.challenge.data with
  | none => none
  | some challengeBytes =>
      let base : WebRequestOptions :=
        { challenge := challengeBytes
          rpId := options.rpId
          timeout := options.timeout
          userVerification := options.userVerification.getD "required" }
      match options.allowCredentials with
      | some creds =>
          if creds.length > 0 then
            (webDescriptorsOf creds).map fun ds =>
              { base with allowCredentials := some ds }
          else some base
      | none => some base

/-- A browser `PublicKeyCredential` carrying an
`AuthenticatorAssertionResponse`.  `userHandle` has DOM type
`ArrayBuffer | null`: `none` is `null`, `some []` a present empty buffer. -/
structure WebAssertionCredential where
  id : String
  rawId : List Nat
  clientDataJSON : List Nat
  authenticatorData : List Nat
  signature : List Nat
  userHandle : Option (List Nat)
  deriving DecidableEq, Repr

/-- `GetPasskeyResult.response` of web.ts. -/
structure GetResultResponse where
  clientDataJSON : String
  authenticatorData : String
  signature : String
  userHandle : Option String := none
  deriving DecidableEq, Repr

/-- `GetPasskeyResult` of web.ts. -/
structure GetPasskeyResult where
  id : String
  rawId : String
  type : String
  response : GetResultResponse
  deriving DecidableEq, Repr

/-- web.ts `formatGetResult`.  The guard `if (response.userHandle)` tests
JS truthiness: `null`/`undefined` are falsy, but any `ArrayBuffer` object —
including an empty one — is truthy, so a present buffer is always encoded
and attached. -/
def formatGetResult (credential : WebAssertionCredential) : GetPasskeyResult :=
  let base : GetPasskeyResult :=
    { id := credential.id
      rawId := String.mk (arrayBufferToBase64Url credential.rawId)
      type := "public-key"
      response :=
        { clientDataJSON := String.mk (arrayBufferToBase64Url credential.clientDataJSON)
          authenticatorData := String.mk (arrayBufferToBase64Url credential.authenticatorData)
          signature := String.mk (arrayBufferToBase64Url credential.signature) } }
  match credential.userHandle with
  | some buf =>
      { base with response :=
          { base.response with
              userHandle := some (String.mk (arrayBufferToBase64Url buf)) } }
  | none => base

/-- Thrown values reaching web.ts `handleWebAuthnError`: a `DOMException`
with its `name` and `message`, another `Error`, or a non-`Error` value. -/
inductive WebThrown where
  | domException (name message : String)
  | jsError (message : String)
  | nonError
  deriving DecidableEq, Repr

/-- web.ts `createError`: a `{code, message}` pair. -/
structure PasskeyErrorObj where
  code : String
  message : String
  deriving DecidableEq, Repr

/-- web.ts `handleWebAuthnError`: the `DOMException` name switch. -/
def handleWebAuthnError : WebThrown → PasskeyErrorObj
  | .domException name message =>
      if name = "AbortError" ∨ name = "NotAllowedError" then
        { code := "cancelled", message := "User cancelled the operation" }
      else if name = "SecurityError" then
        { code := "securityError", message := message }
      else if name = "InvalidStateError" then
        { code := "invalidRequest", message := "Credential already exists for this user" }
      else if name = "NotSupportedError" then
        { code := "notSupported", message := "WebAuthn not supported" }
      else
        { code := "unknownError", message := message }
  | .jsError message => { code := "unknownError", message := message }
  | .nonError => { code := "unknownError", message := "Unknown error occurred" }

/-- Environment of the web `isSupported` check: feature-presence flags and
the result of `isUserVerifyingPlatformAuthenticatorAvailable()`, which may
reject (`Except.error`). -/
structure WebEnv where
  hasWindow : Bool
  hasPublicKeyCredential : Bool
  hasNavigatorCredentials : Bool
  hasUvpaFunction : Bool
  uvpaCall : Except Unit Bool
  deriving Repr

/-- `IsSupportedResult` of web.ts. -/
structure IsSupportedResult where
  supported : Bool
  platformAuthenticatorAvailable : Bool
  deriving DecidableEq, Repr

/-- Outcome of a plugin method from the caller's point of view: resolved
value or rejection with a message and code. -/
inductive CallOutcome (α : Type) where
  | resolved (value : α)
  | rejectedWith (message code : String)
  deriving DecidableEq, Repr

/-- Whether an outcome is a resolution. -/
def CallOutcome.isResolved {α : Type} : CallOutcome α → Bool
  | .resolved _ => true
  | .rejectedWith _ _ => false

/-- web.ts `isSupported`: feature detection, then the availability probe
wrapped in `try { … } catch { // Ignore errors }` — an exception leaves
`platformAuthenticatorAvailable` at `false` and the method still
resolves. -/
def webIsSupported (env : WebEnv) : CallOutcome IsSupportedResult :=
  let supported :=
    env.hasWindow && env.hasPublicKeyCredential && env.hasNavigatorCredentials
  let platformAuthenticatorAvailable :=
    if supported && env.hasUvpaFunction then
      match env.uvpaCall with
      | .ok v => v
      | .error _ => false
    else false
  .resolved { supported, platformAuthenticatorAvailable }

/-! ### iOS adapter (src/ios/Sources/PasskeysPlugin/PasskeysPlugin.swift)

Capacitor calls are dynamically typed: `call.getString` / `call.getObject`
may return nil, and nested dictionary fields may be missing, so every field
read is an `Option`.  The plugin instance owns two mutable slots
(`authController`, `currentCall`); the delegate callbacks are modelled as a
transition to a new state plus an ordered trace of observable actions
(resolve/reject invocations and the slot-clearing writes). -/

/-- The `rp` dictionary of a `create` call. -/
structure JSRp where
  id : Option String := none
  name : Option String := none
  deriving DecidableEq, Repr

/-- The `user` dictionary of a `create` call. -/
structure JSUser where
  id : Option String := none
  name : Option String := none
  displayName : Option String := none
  deriving DecidableEq, Repr

/-- Data of a `create` Capacitor call on iOS.  `ref` is an opaque handle to
the `CAPPluginCall` object.  The iOS `create` only ever reads
`rp["id"]`, `user["id"]` and `user["name"]` from the nested dictionaries;
`rp["name"]` and `user["displayName"]` are never consulted. -/
structure IosCreateCall where
  ref : Nat
  challenge : Option String := none
  rp : Option JSRp := none
  user : Option JSUser := none
  authenticatorSelection : Option AuthenticatorSelectionCriteria := none
  deriving DecidableEq, Repr

/-- One entry of the `allowCredentials` array of a `get` call; iOS reads
only `item["id"]`. -/
structure IosAllowEntry where
  id : Option String := none
  deriving DecidableEq, Repr

/-- Data of a `get` Capacitor call on iOS. -/
structure IosGetCall where
  ref : Nat
  challenge : Option String := none
  rpId : Option String := none
  allowCredentials : Option (List IosAllowEntry) := none
  userVerification : Option String := none
  deriving DecidableEq, Repr

/-- A native `ASAuthorization…Request` handed to the controller. -/
inductive IosRequest where
  | registration (rpId : String) (challenge : List Nat) (name : String)
      (userID : List Nat) (userVerificationPreference : Option String)
  | assertion (rpId : String) (challenge : List Nat)
      (allowedCredentials : Option (List (List Nat)))
      (userVerificationPreference : Option String)
  deriving DecidableEq, Repr

/-- The per-instance mutable slots of the iOS plugin. -/
structure IosState where
  authController : Option IosRequest := none
  currentCall : Option Nat := none
  deriving DecidableEq, Repr

/-- Both slots nil. -/
def iosClearedState : IosState := { authController := none, currentCall := none }

/-- Result of dispatching `create`/`get` on iOS: an early rejection (the
call is answered before any native request), or `performRequests` on a
configured controller. -/
inductive IosDispatch where
  | rejectedCall (message code : String)
  | performRequests (request : IosRequest)
  deriving DecidableEq, Repr

/-- The `userVerification` string switch shared by iOS `create` and `get`
(any unrecognised value falls to `.required`). -/
def iosUserVerificationPreference (uv : String) : String :=
  if uv = "required" then "required"
  else if uv = "preferred" then "preferred"
  else if uv = "discouraged" then "discouraged"
  else "required"

/-- iOS `create`: the guard chain (challenge, rp.id, user.id/user.name,
base64url decode of challenge, base64url decode of user.id), then the
registration request is built, the call and controller are stored, and
`performRequests` is issued.  Early rejections leave the state untouched. -/
def iosCreate (call : IosCreateCall) (st : IosState) : IosDispatch × IosState :=
  match call.challenge with
  | none => (.rejectedCall "Missing required parameter: challenge" "invalidRequest", st)
  | some challengeB64 =>
    match call.rp.bind JSRp.id with
    | none => (.rejectedCall "Missing required parameter: rp.id" "invalidRequest", st)
    | some rpId =>
      match call.user.bind JSUser.id, call.user.bind JSUser.name with
      | some userIdB64, some userName =>
          match iosBase64UrlDecode challengeB64 with
          | none =>
              (.rejectedCall "Invalid base64url encoding for challenge" "invalidRequest", st)
          | some challengeData =>
            match iosBase64UrlDecode userIdB64 with
            | none =>
                (.rejectedCall "Invalid base64url encoding for user.id" "invalidRequest", st)
            | some userIdData =>
              let uvPref :=
                match call.authenticatorSelection with
                | some sel => sel.userVerification.map iosUserVerificationPreference
                | none => none
              let request : IosRequest :=
                .registration rpId challengeData userName userIdData uvPref
              (.performRequests request,
               { authController := some request, currentCall := some call.ref })
      | _, _ =>
          (.rejectedCall "Missing required parameters: user.id, user.name" "invalidRequest", st)

/-- iOS `get`: guard chain (challenge, rpId, decode of challenge); the
`allowCredentials` array is `compactMap`ped through the base64url decoder
and attached only when the resulting descriptor list is non-empty. -/
def iosGet (call : IosGetCall) (st : IosState) : IosDispatch × IosState :=
  match call.challenge with
  | none => (.rejectedCall "Missing required parameter: challenge" "invalidRequest", st)
  | some challengeB64 =>
    match call.rpId with
    | none => (.rejectedCall "Missing required parameter: rpId" "invalidRequest", st)
    | some rpId =>
      match iosBase64UrlDecode challengeB64 with
      | none =>
          (.rejectedCall "Invalid base64url encoding for challenge" "invalidRequest", st)
      | some challengeData =>
        let allowed : Option (List (List Nat)) :=
          match call.allowCredentials with
          | some items =>
              let descriptors := items.filterMap fun item =>
                item.id.bind iosBase64UrlDecode
              if descriptors.isEmpty then none else some descriptors
          | none => none
        let request : IosRequest :=
          .assertion rpId challengeData allowed
            (call.userVerification.map iosUserVerificationPreference)
        (.performRequests request,
         { authController := some request, currentCall := some call.ref })

/-- `CreatePasskeyResult.response` as the iOS delegate builds it. -/
structure IosRegResponse where
  clientDataJSON : String
  attestationObject : String
  deriving DecidableEq, Repr

/-- Registration result dictionary of the iOS delegate. -/
structure IosRegResult where
  id : String
  rawId : String
  type : String
  response : IosRegResponse
  authenticatorAttachment : String
  deriving DecidableEq, Repr

/-- Assertion response dictionary of the iOS delegate; `userHandle` is a
key that may be absent. -/
structure IosAssertResponse where
  clientDataJSON : String
  authenticatorData : String
  signature : String
  userHandle : Option String := none
  deriving DecidableEq, Repr

/-- Assertion result dictionary of the iOS delegate. -/
structure IosAssertResult where
  id : String
  rawId : String
  type : String
  response : IosAssertResponse
  deriving DecidableEq, Repr

/-- The registration result the iOS delegate builds from an
`ASAuthorizationPlatformPublicKeyCredentialRegistration`. -/
def iosRegistrationResult (credentialID rawClientDataJSON attestationObject : List Nat) :
    IosRegResult :=
  { id := iosBase64UrlEncode credentialID
    rawId := iosBase64UrlEncode credentialID
    type := "public-key"
    response :=
      { clientDataJSON := iosBase64UrlEncode rawClientDataJSON
        attestationObject := iosBase64UrlEncode attestationObject }
    authenticatorAttachment := "platform" }

/-- The assertion result the iOS delegate builds from an
`ASAuthorizationPlatformPublicKeyCredentialAssertion`: `userHandle` is
attached only via `if let userHandle = credential.userID,
!userHandle.isEmpty`. -/
def iosAssertionResult (credentialID rawClientDataJSON rawAuthenticatorData signature : List Nat)
    (userID : Option (List Nat)) : IosAssertResult :=
  { id := iosBase64UrlEncode credentialID
    rawId := iosBase64UrlEncode credentialID
    type := "public-key"
    response :=
      { clientDataJSON := iosBase64UrlEncode rawClientDataJSON
        authenticatorData := iosBase64UrlEncode rawAuthenticatorData
        signature := iosBase64UrlEncode signature
        userHandle :=
          match userID with
          | some userHandle =>
              if userHandle.isEmpty then none
              else some (iosBase64UrlEncode userHandle)
          | none => none } }

/-- Observable actions of the iOS delegate callbacks, in program order:
`resolve`/`reject` on the stored call, and the write that nils out both
instance slots. -/
inductive IosEvent where
  | resolveReg (result : IosRegResult)
  | resolveAssert (result : IosAssertResult)
  | rejectCall (message code : String)
  | clearSlot
  deriving DecidableEq, Repr

/-- Whether an event is a caller-facing resolve/reject. -/
def IosEvent.isCallerNotice : IosEvent → Bool
  | .clearSlot => false
  | _ => true

/-- `currentCall?.resolve` / `currentCall?.reject`: optional chaining — the
invocation happens only when the slot actually holds a call. -/
def notifyIfPending (st : IosState) (e : IosEvent) : List IosEvent :=
  if st.currentCall.isSome then [e] else []

/-- The credential carried by a successful `ASAuthorization`: a platform
registration (whose `rawAttestationObject` may be nil), a platform
assertion (whose `userID` may be nil), or some other credential type. -/
inductive IosCredential where
  | registration (credentialID rawClientDataJSON : List Nat)
      (rawAttestationObject : Option (List Nat))
  | assertion (credentialID rawClientDataJSON rawAuthenticatorData signature : List Nat)
      (userID : Option (List Nat))
  | otherCredential
  deriving DecidableEq, Repr

/-- `ASAuthorizationError.Code` (the `@unknown default` arm of the source
coincides with the `.unknown` arm: both return `unknownError` with the
error's localized description). -/
inductive ASAuthorizationErrorCode where
  | canceled
  | invalidResponse
  | notHandled
  | failed
  | unknownCode
  deriving DecidableEq, Repr

/-- An error delivered to the iOS failure delegate: an
`ASAuthorizationError` or any other `Error`. -/
inductive IosError where
  | authError (code : ASAuthorizationErrorCode) (localizedDescription : String)
  | plainError (localizedDescription : String)
  deriving DecidableEq, Repr

/-- iOS `mapError`, returning the `(code, message)` tuple of the source. -/
def mapError : IosError → String × String
  | .authError .canceled _ => ("cancelled", "User cancelled the operation")
  | .authError .invalidResponse _ => ("invalidRequest", "Invalid response from authenticator")
  | .authError .notHandled _ => ("noCredentials", "No credentials available")
  | .authError .failed _ => ("securityError", "Authorization failed")
  | .authError .unknownCode d => ("unknownError", d)
  | .plainError d => ("unknownError", d)

/-- iOS `authorizationController(_:didCompleteWithAuthorization:)`.  The
Swift body runs under `defer { currentCall = nil; authController = nil }`,
so on every path the resolve/reject happens first and the slot-clearing
runs last, when the handler exits. -/
def iosDidCompleteWithAuthorization (st : IosState) (c : IosCredential) :
    List IosEvent × IosState :=
  let body :=
    match c with
    | .registration _ _ none =>
        notifyIfPending st (.rejectCall "Missing attestation object" "unknownError")
    | .registration cid cdj (some att) =>
        notifyIfPending st (.resolveReg (iosRegistrationResult cid cdj att))
    | .assertion cid cdj ad sg uid =>
        notifyIfPending st (.resolveAssert (iosAssertionResult cid cdj ad sg uid))
    | .otherCredential =>
        notifyIfPending st (.rejectCall "Unsupported credential type" "unknownError")
  (body ++ [.clearSlot], iosClearedState)

/-- iOS `authorizationController(_:didCompleteWithError:)`: reject with
the mapped code, then nil out both slots. -/
def iosDidCompleteWithError (st : IosState) (error : IosError) :
    List IosEvent × IosState :=
  let mapped := mapError error
  (notifyIfPending st (.rejectCall mapped.2 mapped.1) ++ [.clearSlot], iosClearedState)

/-- A ceremony completion delivered by the native authorization
controller: success with some credential, or failure with some error. -/
inductive IosCompletion where
  | completed (c : IosCredential)
  | failedWith (e : IosError)
  deriving DecidableEq, Repr

/-- Dispatch of a completion to the matching delegate callback. -/
def iosComplete (st : IosState) : IosCompletion → List IosEvent × IosState
  | .completed c => iosDidCompleteWithAuthorization st c
  | .failedWith e => iosDidCompleteWithError st e

/-- Whether, in a delegate trace, some slot-clearing event occurs strictly
before some caller-facing resolve/reject. -/
def clearBeforeNotice : List IosEvent → Bool
  | [] => false
  | .clearSlot :: rest => rest.any IosEvent.isCallerNotice || clearBeforeNotice rest
  | _ :: rest => clearBeforeNotice rest

/-- `details` dictionary of iOS `isSupported`. -/
structure IosSupportDetails where
  osVersion : String
  platformAuthenticatorAvailable : Bool
  deriving DecidableEq, Repr

/-- Result dictionary of iOS `isSupported`. -/
structure IosSupportedResult where
  supported : Bool
  details : IosSupportDetails
  deriving DecidableEq, Repr

/-- Environment of iOS `isSupported`: the `#available(iOS 16.0, *)` test
and the reported system version. -/
structure IosEnv where
  systemVersion : String
  ios16Available : Bool
  deriving DecidableEq, Repr

/-- iOS `isSupported`: both branches of the availability check resolve. -/
def iosIsSupported (env : IosEnv) : CallOutcome IosSupportedResult :=
  if env.ios16Available then
    .resolved
      { supported := true
        details :=
          { osVersion := env.systemVersion, platformAuthenticatorAvailable := true } }
  else
    .resolved
      { supported := false
        details :=
          { osVersion := env.systemVersion, platformAuthenticatorAvailable := false } }

/-! ### Android adapter (Credential Manager Kotlin source)

The Android `create`/`get` build a WebAuthn JSON request string and launch
a coroutine; there is no per-instance pending slot.  JSON objects with
conditionally-`put` keys are modelled as records with `Option` fields;
base64url payload strings are passed through verbatim. -/

/-- Android `create`: the JSON object put under `"authenticatorSelection"`.
When the caller supplied an object, only the sub-fields it explicitly set
are `put`; when the whole object is absent, the full default triple is
built. -/
def androidBuildAuthenticatorSelection
    (sel : Option AuthenticatorSelectionCriteria) : AuthenticatorSelectionCriteria :=
  match sel with
  | some s =>
      { authenticatorAttachment := s.authenticatorAttachment
        residentKey := s.residentKey
        userVerification := s.userVerification }
  | none =>
      { authenticatorAttachment := some "platform"
        residentKey := some "required"
        userVerification := some "required" }

/-- The `requestJson` of Android `create` (a WebAuthn JSON creation
request).  `attestation` and `timeout` keys are present only when the
caller supplied them. -/
structure AndroidCreateRequest where
  challenge : String
  rpId : String
  rpName : String
  userId : String
  userName : String
  displayName : String
  pubKeyCredParams : List PublicKeyCredentialParameters
  authenticatorSelection : AuthenticatorSelectionCriteria
  attestation : Option String
  timeout : Option Int
  deriving DecidableEq, Repr

/-- Steps 2–4 of Android `create`: rebuild `pubKeyCredParams` (defaulting
to ES256 + RS256 when absent), build `authenticatorSelection`, and
assemble the request JSON with optional `attestation`/`timeout`. -/
def androidCreateRequestJson (challenge rpId rpName userId userName displayName : String)
    (pubKeyCredParams : Option (List PublicKeyCredentialParameters))
    (sel : Option AuthenticatorSelectionCriteria)
    (attestation : Option String) (timeout : Option Int) : AndroidCreateRequest :=
  { challenge, rpId, rpName, userId, userName, displayName
    pubKeyCredParams :=
      pubKeyCredParams.getD
        [{ type := "public-key", alg := -7 },
         { type := "public-key", alg := -257 }]
    authenticatorSelection := androidBuildAuthenticatorSelection sel
    attestation := attestation
    timeout := timeout }

/-- Data of a `create` Capacitor call on Android (every read may be
absent), plus whether an `activity` is attached at dispatch time. -/
structure AndroidCreateCall where
  challenge : Option String := none
  rp : Option JSRp := none
  user : Option JSUser := none
  pubKeyCredParams : Option (List PublicKeyCredentialParameters) := none
  authenticatorSelection : Option AuthenticatorSelectionCriteria := none
  attestation : Option String := none
  timeout : Option Int := none
  activityAvailable : Bool := true
  deriving DecidableEq, Repr

/-- Outcome of dispatching Android `create`: early rejection or the
coroutine launch that hands `request` to the Credential Manager. -/
inductive AndroidCreateDispatch where
  | rejectedCall (message code : String)
  | launched (request : AndroidCreateRequest)
  deriving DecidableEq, Repr

/-- Android `create` up to the coroutine launch: validation of the six
required fields, request assembly, then the activity-availability check. -/
def androidCreate (call : AndroidCreateCall) : AndroidCreateDispatch :=
  match call.challenge with
  | none => .rejectedCall "Missing required parameter: challenge" "invalidRequest"
  | some challenge =>
    match call.rp.bind JSRp.id, call.rp.bind JSRp.name with
    | some rpId, some rpName =>
        (match call.user.bind JSUser.id, call.user.bind JSUser.name,
            call.user.bind JSUser.displayName with
        | some userId, some userName, some displayName =>
            let request :=
              androidCreateRequestJson challenge rpId rpName userId userName displayName
                call.pubKeyCredParams call.authenticatorSelection
                call.attestation call.timeout
            if call.activityAvailable then .launched request
            else .rejectedCall "Activity not available" "unknownError"
        | _, _, _ =>
            .rejectedCall
              "Missing required parameters: user.id, user.name, user.displayName"
              "invalidRequest")
    | _, _ =>
        .rejectedCall "Missing required parameters: rp.id, rp.name" "invalidRequest"

/-- The `requestJson` of Android `get` (a WebAuthn JSON request).  The
`allowCredentials` key is present whenever the caller supplied the array —
including an empty one; entries are rebuilt field-by-field with
`transports` copied only when present. -/
structure AndroidGetRequest where
  challenge : String
  rpId : String
  userVerification : String
  allowCredentials : Option (List PublicKeyCredentialDescriptor)
  timeout : Option Int
  deriving DecidableEq, Repr

/-- Data of a `get` Capacitor call on Android. -/
structure AndroidGetCall where
  challenge : Option String := none
  rpId : Option String := none
  allowCredentials : Option (List PublicKeyCredentialDescriptor) := none
  userVerification : Option String := none
  timeout : Option Int := none
  activityAvailable : Bool := true
  deriving DecidableEq, Repr

/-- Outcome of dispatching Android `get`. -/
inductive AndroidGetDispatch where
  | rejectedCall (message code : String)
  | launched (request : AndroidGetRequest)
  deriving DecidableEq, Repr

/-- Android `get` up to the coroutine launch. -/
def androidGet (call : AndroidGetCall) : AndroidGetDispatch :=
  match call.challenge with
  | none => .rejectedCall "Missing required parameter: challenge" "invalidRequest"
  | some challenge =>
    match call.rpId with
    | none => .rejectedCall "Missing required parameter: rpId" "invalidRequest"
    | some rpId =>
      let request : AndroidGetRequest :=
        { challenge := challenge
          rpId := rpId
          userVerification := call.userVerification.getD "required"
          allowCredentials :=
            call.allowCredentials.map fun creds =>
              creds.map fun cred =>
                { type := cred.type, id := cred.id, transports := cred.transports }
          timeout := call.timeout }
      if call.activityAvailable then .launched request
      else .rejectedCall "Activity not available" "unknownError"

/-- The `response` object of the parsed `authenticationResponseJson`;
`userHandle := none` covers both an absent key and a JSON null. -/
structure AndroidAssertionResponseJson where
  clientDataJSON : String
  authenticatorData : String
  signature : String
  userHandle : Option String := none
  deriving DecidableEq, Repr

/-- The `response` sub-object Android `get` builds from a parsed
assertion: `userHandle` is `put` only when the key is present, non-null
and non-empty (`userHandle.isNotEmpty()`). -/
def androidFormatGetResponse (resp : AndroidAssertionResponseJson) : GetResultResponse :=
  { clientDataJSON := resp.clientDataJSON
    authenticatorData := resp.authenticatorData
    signature := resp.signature
    userHandle :=
      match resp.userHandle with
      | some userHandle => if userHandle = "" then none else some userHandle
      | none => none }

/-- `CreateCredentialException` subtypes distinguished by Android
`mapCreateError` (`otherKind` is the `else` arm). -/
inductive AndroidCreateError where
  | cancellation
  | interrupted
  | providerConfiguration
  | unknownKind (message : Option String)
  | custom (message : Option String)
  | otherKind (message : Option String)
  deriving DecidableEq, Repr

/-- Android `mapCreateError`, returning the `(code, message)` pair of the
source (`"cancelled" to "User cancelled the operation"` and so on). -/
def mapCreateError : AndroidCreateError → String × String
  | .cancellation => ("cancelled", "User cancelled the operation")
  | .interrupted => ("cancelled", "Operation was interrupted")
  | .providerConfiguration => ("notSupported", "Credential provider not configured")
  | .unknownKind m => ("unknownError", m.getD "Unknown error")
  | .custom m => ("unknownError", m.getD "Custom error")
  | .otherKind m => ("unknownError", m.getD "Unknown error during credential creation")

/-- `GetCredentialException` subtypes distinguished by Android
`mapGetError`. -/
inductive AndroidGetError where
  | cancellation
  | noCredential
  | interrupted
  | providerConfiguration
  | unknownKind (message : Option String)
  | custom (message : Option String)
  | otherKind (message : Option String)
  deriving DecidableEq, Repr

/-- Android `mapGetError`. -/
def mapGetError : AndroidGetError → String × String
  | .cancellation => ("cancelled", "User cancelled the operation")
  | .noCredential => ("noCredentials", "No matching credentials found")
  | .interrupted => ("cancelled", "Operation was interrupted")
  | .providerConfiguration => ("notSupported", "Credential provider not configured")
  | .unknownKind m => ("unknownError", m.getD "Unknown error")
  | .custom m => ("unknownError", m.getD "Custom error")
  | .otherKind m => ("unknownError", m.getD "Unknown error during credential retrieval")

/-! ### Predicates used to state the claims -/

/-- Canonical base64url text in the sense of the specification's round-trip
law: no padding characters, URL-safe alphabet only. -/
def isCanonicalBase64Url (s : List Char) : Bool :=
  s.all fun c => (decChar (urlToStdChar c)).isSome

/-- Thrown web values meaning user cancellation (user dismissed or
declined the prompt): the `AbortError` / `NotAllowedError` names of the
source's "User cancelled or denied" arm. -/
def webIsCancellationSignal : WebThrown → Bool
  | .domException name _ => name == "AbortError" || name == "NotAllowedError"
  | _ => false

/-- iOS errors meaning user cancellation or system interruption:
`ASAuthorizationError.canceled` (the only such signal the iOS API
delivers). -/
def iosIsCancellationSignal : IosError → Bool
  | .authError .canceled _ => true
  | _ => false

/-- Android create-exceptions meaning user cancellation or system
interruption. -/
def androidCreateIsCancellationSignal : AndroidCreateError → Bool
  | .cancellation => true
  | .interrupted => true
  | _ => false

/-- Android get-exceptions meaning user cancellation or system
interruption. -/
def androidGetIsCancellationSignal : AndroidGetError → Bool
  | .cancellation => true
  | .interrupted => true
  | _ => false

/-- Environment of Android `isSupported`: the SDK level and the Play
Services probe, which may throw (`Except.error`) or return a
`ConnectionResult` code (`0` is `SUCCESS`). -/
structure AndroidEnv where
  sdkInt : Nat
  osRelease : String
  playServicesProbe : Except Unit Int
  deriving Repr

/-- `details` object of Android `isSupported`. -/
structure AndroidSupportDetails where
  osVersion : String
  apiLevel : Nat
  platformAuthenticatorAvailable : Bool
  hasPlayServices : Bool
  deriving DecidableEq, Repr

/-- Result object of Android `isSupported`. -/
structure AndroidSupportedResult where
  supported : Bool
  details : AndroidSupportDetails
  deriving DecidableEq, Repr

/-- Android `isSupported`: the API-level test, the Play Services probe in
`try { … } catch (e: Exception) { false }`, then an unconditional
`call.resolve`. -/
def androidIsSupported (env : AndroidEnv) : CallOutcome AndroidSupportedResult :=
  let apiLevelOk := decide (env.sdkInt ≥ 28)
  let hasPlayServices :=
    match env.playServicesProbe with
    | .ok resultCode => decide (resultCode = 0)
    | .error _ => false
  let supported := apiLevelOk && hasPlayServices
  .resolved
    { supported
      details :=
        { osVersion := env.osRelease
          apiLevel := env.sdkInt
          platformAuthenticatorAvailable := supported
          hasPlayServices := hasPlayServices } }

end Passkeys

namespace Passkeys

example : arrayBufferToBase64Url [1, 2, 3] = ['A', 'Q', 'I', 'D'] := by decide
example : base64UrlToArrayBuffer ['A', 'Q', 'I', 'D'] = some [1, 2, 3] := by decide
example : base64UrlToArrayBuffer ['A', 'Q'] = some [1] := by decide
example : base64UrlToArrayBuffer ['A', 'B'] = some [0] := by decide
example : arrayBufferToBase64Url [0] = ['A', 'A'] := by decide
example : iosBase64UrlDecode "%" = none := by decide
example : iosBase64UrlDecode "AQID" = some [1, 2, 3] := by decide
example : iosBase64UrlEncode [1, 2, 3] = "AQID" := by decide

/-! ### Codec lemmas -/

theorem sextetsToBytes_bytesToSextets :
    ∀ b : List Nat, (∀ x ∈ b, x < 256) → sextetsToBytes (bytesToSextets b) = b
  | [], _ => rfl
  | [b1], h => by
      have h1 : b1 < 256 := h b1 (by simp)
      simp only [bytesToSextets, sextetsToBytes, List.cons.injEq, and_true]
      omega
  | [b1, b2], h => by
      have h1 : b1 < 256 := h b1 (by simp)
      have h2 : b2 < 256 := h b2 (by simp)
      simp only [bytesToSextets, sextetsToBytes, List.cons.injEq, and_true]
      constructor <;> omega
  | b1 :: b2 :: b3 :: rest, h => by
      have h1 : b1 < 256 := h b1 (by simp)
      have h2 : b2 < 256 := h b2 (by simp)
      have h3 : b3 < 256 := h b3 (by simp)
      have ih := sextetsToBytes_bytesToSextets rest (fun x hx => h x (by simp [hx]))
      simp only [bytesToSextets, sextetsToBytes, List.cons.injEq]
      refine ⟨by omega, by omega, by omega, ih⟩

theorem bytesToSextets_lt :
    ∀ b : List Nat, (∀ x ∈ b, x < 256) → ∀ s ∈ bytesToSextets b, s < 64
  | [], _ => by simp [bytesToSextets]
  | [b1], h => by
      have h1 : b1 < 256 := h b1 (by simp)
      intro s hs
      simp only [bytesToSextets, List.mem_cons, List.not_mem_nil, or_false] at hs
      rcases hs with hs | hs <;> omega
  | [b1, b2], h => by
      have h1 : b1 < 256 := h b1 (by simp)
      have h2 : b2 < 256 := h b2 (by simp)
      intro s hs
      simp only [bytesToSextets, List.mem_cons, List.not_mem_nil, or_false] at hs
      rcases hs with hs | hs | hs <;> omega
  | b1 :: b2 :: b3 :: rest, h => by
      have h1 : b1 < 256 := h b1 (by simp)
      have h2 : b2 < 256 := h b2 (by simp)
      have h3 : b3 < 256 := h b3 (by simp)
      have ih := bytesToSextets_lt rest (fun x hx => h x (by simp [hx]))
      intro s hs
      simp only [bytesToSextets, List.mem_cons] at hs
      rcases hs with hs | hs | hs | hs | hs
      · omega
      · omega
      · omega
      · omega
      · exact ih s hs

theorem bytesToSextets_length_mod :
    ∀ b : List Nat, (bytesToSextets b).length % 4 ≠ 1
  | [] => by simp [bytesToSextets]
  | [_] => by simp [bytesToSextets]
  | [_, _] => by simp [bytesToSextets]
  | _ :: _ :: _ :: rest => by
      have ih := bytesToSextets_length_mod rest
      simp only [bytesToSextets, List.length_cons]
      omega

theorem decChar_encChar {n : Nat} (h : n < 64) : decChar (encChar n) = some n := by
  have all : ∀ i : Fin 64, decChar (encChar i.val) = some i.val := by decide
  exact all ⟨n, h⟩

theorem encChar_ne_eq {n : Nat} (h : n < 64) : encChar n ≠ '=' := by
  have all : ∀ i : Fin 64, encChar i.val ≠ '=' := by decide
  exact all ⟨n, h⟩

theorem stdToUrl_encChar_ne_eq {n : Nat} (h : n < 64) : stdToUrlChar (encChar n) ≠ '=' := by
  have all : ∀ i : Fin 64, stdToUrlChar (encChar i.val) ≠ '=' := by decide
  exact all ⟨n, h⟩

theorem urlToStd_stdToUrl_encChar {n : Nat} (h : n < 64) :
    urlToStdChar (stdToUrlChar (encChar n)) = encChar n := by
  have all : ∀ i : Fin 64, urlToStdChar (stdToUrlChar (encChar i.val)) = encChar i.val := by
    decide
  exact all ⟨n, h⟩

theorem dropWhile_replicate_append (p : Char → Bool) (a : Char) (hpa : p a = true) :
    ∀ (k : Nat) (l : List Char),
      List.dropWhile p (List.replicate k a ++ l) = List.dropWhile p l
  | 0, l => by simp
  | k + 1, l => by
      simp only [List.replicate_succ, List.cons_append, List.dropWhile_cons, hpa, if_true]
      exact dropWhile_replicate_append p a hpa k l

theorem dropWhile_eq_self_of (p : Char → Bool) :
    ∀ l : List Char, (∀ a ∈ l, p a = false) → List.dropWhile p l = l
  | [], _ => rfl
  | a :: rest, h => by
      have ha : p a = false := h a (by simp)
      simp [List.dropWhile_cons, ha]

theorem stripTrailingEq_append_replicate (ys : List Char) (k : Nat) (h : '=' ∉ ys) :
    stripTrailingEq (ys ++ List.replicate k '=') = ys := by
  unfold stripTrailingEq
  rw [List.reverse_append, List.reverse_replicate,
    dropWhile_replicate_append _ _ (by simp) k ys.reverse,
    dropWhile_eq_self_of _ ys.reverse ?_, List.reverse_reverse]
  intro a ha
  have : a ≠ '=' := by
    intro he
    exact h (he ▸ List.mem_reverse.mp ha)
  simp [this]

theorem stripAtMost2Eq_nil_pad (ys : List Char) (h : '=' ∉ ys) :
    stripAtMost2Eq ys = ys := by
  unfold stripAtMost2Eq
  have hhead : ∀ c t, ys.reverse = c :: t → c ≠ '=' := by
    intro c t hct he
    exact h (List.mem_reverse.mp (by rw [hct, he]; simp))
  rw [if_neg ?_, if_neg ?_]
  · cases hy : ys.reverse with
    | nil => simp [hy]
    | cons c t =>
        have := hhead c t hy
        simp [hy, this]
  · cases hy : ys.reverse with
    | nil => simp [hy]
    | cons c t =>
        have := hhead c t hy
        simp [hy, this]

theorem stripAtMost2Eq_one_pad (ys : List Char) (h : '=' ∉ ys) :
    stripAtMost2Eq (ys ++ ['=']) = ys := by
  unfold stripAtMost2Eq
  have hrev : (ys ++ ['=']).reverse = '=' :: ys.reverse := by simp
  rw [hrev]
  rw [if_neg ?_]
  · simp
  · cases hy : ys.reverse with
    | nil => simp [hy]
    | cons c t =>
        have hc : c ≠ '=' := by
          intro he
          exact h (List.mem_reverse.mp (by rw [hy, he]; simp))
        simp [hy, hc]

theorem stripAtMost2Eq_two_pad (ys : List Char) (_h : '=' ∉ ys) :
    stripAtMost2Eq (ys ++ ['=', '=']) = ys := by
  unfold stripAtMost2Eq
  have hrev : (ys ++ ['=', '=']).reverse = '=' :: '=' :: ys.reverse := by simp
  rw [hrev, if_pos (by simp)]
  simp

theorem decodeChars_map_encChar :
    ∀ sx : List Nat, (∀ s ∈ sx, s < 64) → decodeChars (sx.map encChar) = some sx
  | [], _ => rfl
  | s :: rest, h => by
      have hs : s < 64 := h s (by simp)
      have ih := decodeChars_map_encChar rest (fun x hx => h x (by simp [hx]))
      simp [decodeChars, decChar_encChar hs, ih]

theorem arrayBufferToBase64Url_eq (b : List Nat) (h : ∀ x ∈ b, x < 256) :
    arrayBufferToBase64Url b = (bytesToSextets b).map (stdToUrlChar ∘ encChar) := by
  unfold arrayBufferToBase64Url btoaChars
  rw [List.map_append, List.map_replicate, show stdToUrlChar '=' = '=' from by decide,
    List.map_map]
  refine stripTrailingEq_append_replicate _ _ ?_
  intro hmem
  rcases List.mem_map.mp hmem with ⟨s, hs, heq⟩
  exact stdToUrl_encChar_ne_eq (bytesToSextets_lt b h s hs) heq

theorem atobChars_encoded (sx : List Nat) (hlt : ∀ s ∈ sx, s < 64)
    (hmod : sx.length % 4 ≠ 1) (k : Nat) (hk0 : (sx.length + k) % 4 = 0) (hk2 : k ≤ 2) :
    atobChars (sx.map encChar ++ List.replicate k '=') = some (sextetsToBytes sx) := by
  have hne : '=' ∉ sx.map encChar := by
    intro hmem
    rcases List.mem_map.mp hmem with ⟨s, hs, heq⟩
    exact encChar_ne_eq (hlt s hs) heq
  have hstrip : atobStripPad (sx.map encChar ++ List.replicate k '=')
      = sx.map encChar := by
    unfold atobStripPad
    rw [if_pos (by simp; omega)]
    interval_cases k
    · simpa using stripAtMost2Eq_nil_pad _ hne
    · simpa using stripAtMost2Eq_one_pad _ hne
    · simpa using stripAtMost2Eq_two_pad _ hne
  unfold atobChars
  rw [hstrip, List.length_map, if_neg hmod, decodeChars_map_encChar _ hlt,
    Option.map_some']

theorem base64url_decode_encode (b : List Nat) (h : ∀ x ∈ b, x < 256) :
    base64UrlToArrayBuffer (arrayBufferToBase64Url b) = some b := by
  rw [arrayBufferToBase64Url_eq b h]
  have hlt : ∀ s ∈ bytesToSextets b, s < 64 := bytesToSextets_lt b h
  have hmod : (bytesToSextets b).length % 4 ≠ 1 := bytesToSextets_length_mod b
  unfold base64UrlToArrayBuffer
  rw [List.map_map]
  have hmap : (bytesToSextets b).map (urlToStdChar ∘ stdToUrlChar ∘ encChar)
      = (bytesToSextets b).map encChar := by
    apply List.map_congr_left
    intro s hs
    exact urlToStd_stdToUrl_encChar (hlt s hs)
  rw [hmap]
  have hpadeq : base64UrlPad ((bytesToSextets b).map encChar)
      = (bytesToSextets b).map encChar ++
        List.replicate ((4 - (bytesToSextets b).length % 4) % 4) '=' := by
    unfold base64UrlPad
    rw [List.length_map]
  rw [hpadeq, atobChars_encoded _ hlt hmod _ (by omega) (by omega),
    sextetsToBytes_bytesToSextets b h]

theorem dataBase64Decode_encoded (sx : List Nat) (hlt : ∀ s ∈ sx, s < 64)
    (hmod : sx.length % 4 ≠ 1) (k : Nat) (hk0 : (sx.length + k) % 4 = 0) (hk2 : k ≤ 2) :
    dataBase64Decode (sx.map encChar ++ List.replicate k '=') = some (sextetsToBytes sx) := by
  have hne : '=' ∉ sx.map encChar := by
    intro hmem
    rcases List.mem_map.mp hmem with ⟨s, hs, heq⟩
    exact encChar_ne_eq (hlt s hs) heq
  have hstrip : stripAtMost2Eq (sx.map encChar ++ List.replicate k '=')
      = sx.map encChar := by
    interval_cases k
    · simpa using stripAtMost2Eq_nil_pad _ hne
    · simpa using stripAtMost2Eq_one_pad _ hne
    · simpa using stripAtMost2Eq_two_pad _ hne
  unfold dataBase64Decode
  rw [if_pos (by simp; omega), hstrip, List.length_map, if_neg hmod,
    decodeChars_map_encChar _ hlt, Option.map_some']

theorem ios_base64url_decode_encode (b : List Nat) (h : ∀ x ∈ b, x < 256) :
    iosBase64UrlDecode (iosBase64UrlEncode b) = some b := by
  have hlt : ∀ s ∈ bytesToSextets b, s < 64 := bytesToSextets_lt b h
  have hmod : (bytesToSextets b).length % 4 ≠ 1 := bytesToSextets_length_mod b
  have hdata : (iosBase64UrlEncode b).data = arrayBufferToBase64Url b := rfl
  unfold iosBase64UrlDecode
  rw [hdata, arrayBufferToBase64Url_eq b h, List.map_map]
  have hmap : (bytesToSextets b).map (urlToStdChar ∘ stdToUrlChar ∘ encChar)
      = (bytesToSextets b).map encChar := by
    apply List.map_congr_left
    intro s hs
    exact urlToStd_stdToUrl_encChar (hlt s hs)
  rw [hmap]
  unfold iosBase64UrlPad
  rw [List.length_map]
  by_cases h0 : (bytesToSextets b).length % 4 > 0
  · rw [if_pos h0,
      dataBase64Decode_encoded _ hlt hmod _ (by omega) (by omega),
      sextetsToBytes_bytesToSextets b h]
  · rw [if_neg h0,
      show (bytesToSextets b).map encChar
          = (bytesToSextets b).map encChar ++ List.replicate 0 '=' from by simp,
      dataBase64Decode_encoded _ hlt hmod 0 (by omega) (by omega),
      sextetsToBytes_bytesToSextets b h]

/-! ### Claim C1 -/

/-- Claim C1 counterexample: at a concrete assertion completion delivered
while a call is pending, the iOS delegate trace is a caller notification
followed by the slot clearing — no clearing event precedes the
notification, so the claim's "clearing happens … before the caller is
notified of the outcome" is false on this completion path. -/
theorem claim_c1_counterexample :
    clearBeforeNotice
      (iosComplete
        { authController := some (.assertion "example.com" [1, 2, 3] none none)
          currentCall := some 7 }
        (.completed (.assertion [1] [2] [3] [4] none))).1 = false
    ∧ (iosComplete
        { authController := some (.assertion "example.com" [1, 2, 3] none none)
          currentCall := some 7 }
        (.completed (.assertion [1] [2] [3] [4] none))).1.any IosEvent.isCallerNotice
      = true := by decide

/-- Claim C1, amended: after any completion path of an iOS ceremony —
success, mapped native error, missing attestation, or unexpected
credential type — both pending-ceremony slots (`currentCall` and
`authController`) are nil, and the clearing is the final action of the
delegate handler; it happens after the caller notification is issued, not
before. -/
theorem claim_c1_slot_cleared (st : IosState) (c : IosCompletion) :
    (iosComplete st c).2.currentCall = none
    ∧ (iosComplete st c).2.authController = none
    ∧ (iosComplete st c).1.getLast? = some .clearSlot := by
  rcases c with c | e
  · rcases c with ⟨cid, cdj, (_ | att)⟩ | ⟨cid, cdj, ad, sg, uid⟩ | _ <;>
      simp [iosComplete, iosDidCompleteWithAuthorization, iosClearedState]
  · simp [iosComplete, iosDidCompleteWithError, iosClearedState]

/-! ### Claim C2 -/

/-- Claim C2 counterexample: `"AB"` is canonical base64url text (URL-safe
alphabet, no padding characters), its decode succeeds on both cited
codecs — the web decoder and the iOS decoder each discard the nonzero
leftover bits of the final group — but re-encoding the decoded byte yields
`"AA"` on both, so `encode (decode t) = t` fails. -/
theorem claim_c2_counterexample :
    isCanonicalBase64Url ['A', 'B'] = true
    ∧ base64UrlToArrayBuffer ['A', 'B'] = some [0]
    ∧ arrayBufferToBase64Url [0] = ['A', 'A']
    ∧ arrayBufferToBase64Url [0] ≠ ['A', 'B']
    ∧ iosBase64UrlDecode "AB" = some [0]
    ∧ iosBase64UrlEncode [0] = "AA"
    ∧ iosBase64UrlEncode [0] ≠ "AB" := by decide

/-- Claim C2, amended: `decode (encode b) = b` holds for every byte
string, for the web codec (`base64UrlToArrayBuffer` or
`arrayBufferToBase64Url`) and for the iOS codec (`iosBase64UrlDecode` or
`iosBase64UrlEncode`) alike; `encode (decode t) = t` holds, on each codec,
for every text in the image of that codec's `encode` (canonical texts
whose length is not 1 mod 4 and whose final group's leftover bits are
zero), rather than for every canonical base64url text. -/
theorem claim_c2_base64url_roundtrip :
    (∀ b : List Nat, (∀ x ∈ b, x < 256) →
      base64UrlToArrayBuffer (arrayBufferToBase64Url b) = some b)
    ∧ (∀ b : List Nat, (∀ x ∈ b, x < 256) →
      iosBase64UrlDecode (iosBase64UrlEncode b) = some b)
    ∧ (∀ (t : List Char) (b : List Nat), (∀ x ∈ b, x < 256) →
        arrayBufferToBase64Url b = t →
        ∃ b2, base64UrlToArrayBuffer t = some b2 ∧ arrayBufferToBase64Url b2 = t)
    ∧ ∀ (t : String) (b : List Nat), (∀ x ∈ b, x < 256) →
        iosBase64UrlEncode b = t →
        ∃ b2, iosBase64UrlDecode t = some b2 ∧ iosBase64UrlEncode b2 = t := by
  refine ⟨base64url_decode_encode, ios_base64url_decode_encode, ?_, ?_⟩
  · intro t b hb ht
    exact ⟨b, ht ▸ base64url_decode_encode b hb, ht⟩
  · intro t b hb ht
    exact ⟨b, ht ▸ ios_base64url_decode_encode b hb, ht⟩

/-- Claim C2 witness: the round-trip law of both codecs evaluated at a
concrete byte string. -/
theorem claim_c2_base64url_roundtrip_witness :
    base64UrlToArrayBuffer (arrayBufferToBase64Url [0, 1, 2, 250, 255])
      = some [0, 1, 2, 250, 255]
    ∧ iosBase64UrlDecode (iosBase64UrlEncode [0, 1, 2, 250, 255])
      = some [0, 1, 2, 250, 255] :=
  ⟨claim_c2_base64url_roundtrip.1 [0, 1, 2, 250, 255] (by decide),
   claim_c2_base64url_roundtrip.2.1 [0, 1, 2, 250, 255] (by decide)⟩

/-! ### Claim C3 -/

/-- Claim C3 counterexample: an iOS `create` call whose `rp.name` and
`user.displayName` are missing is not rejected: the native registration
request is issued and the pending-call and controller slots are written,
contradicting the claim that every adapter rejects with `invalidRequest`
when any of the six required fields is missing. -/
theorem claim_c3_counterexample :
    iosCreate
      { ref := 1
        challenge := some "AQID"
        rp := some { id := some "example.com", name := none }
        user := some { id := some "AQ", name := some "a@b.com", displayName := none }
        authenticatorSelection := none }
      iosClearedState
    = (.performRequests (.registration "example.com" [1, 2, 3] "a@b.com" [1] none),
       { authController := some (.registration "example.com" [1, 2, 3] "a@b.com" [1] none)
         currentCall := some 1 }) := by decide

/-- Claim C3, amended: the Android adapter rejects with `invalidRequest`
(before any native work) when any of the six required fields `challenge`,
`rp.id`, `rp.name`, `user.id`, `user.name`, `user.displayName` is missing;
the iOS adapter validates only `challenge`, `rp.id`, `user.id` and
`user.name` — a missing `rp.name` or `user.displayName` is not rejected —
and its early rejections leave the instance state untouched. -/
theorem claim_c3_required_fields :
    (∀ (call : IosCreateCall) (st : IosState),
      call.challenge = none ∨ call.rp.bind JSRp.id = none ∨
        call.user.bind JSUser.id = none ∨ call.user.bind JSUser.name = none →
      ∃ msg, iosCreate call st = (.rejectedCall msg "invalidRequest", st))
    ∧ ∀ call : AndroidCreateCall,
        call.challenge = none ∨ call.rp.bind JSRp.id = none ∨
          call.rp.bind JSRp.name = none ∨ call.user.bind JSUser.id = none ∨
          call.user.bind JSUser.name = none ∨ call.user.bind JSUser.displayName = none →
        ∃ msg, androidCreate call = .rejectedCall msg "invalidRequest" := by
  constructor
  · intro call st h
    cases hch : call.challenge with
    | none =>
        exact ⟨"Missing required parameter: challenge", by simp [iosCreate, hch]⟩
    | some ch =>
      cases hrp : call.rp.bind JSRp.id with
      | none =>
          exact ⟨"Missing required parameter: rp.id", by simp [iosCreate, hch, hrp]⟩
      | some rpId =>
        cases hui : call.user.bind JSUser.id with
        | none =>
            exact ⟨"Missing required parameters: user.id, user.name",
              by simp [iosCreate, hch, hrp, hui]⟩
        | some uid =>
          cases hun : call.user.bind JSUser.name with
          | none =>
              exact ⟨"Missing required parameters: user.id, user.name",
                by simp [iosCreate, hch, hrp, hui, hun]⟩
          | some un =>
              rcases h with h | h | h | h <;>
                simp [hch, hrp, hui, hun] at h
  · intro call h
    cases hch : call.challenge with
    | none =>
        exact ⟨"Missing required parameter: challenge", by simp [androidCreate, hch]⟩
    | some ch =>
      cases hrpi : call.rp.bind JSRp.id with
      | none =>
          exact ⟨"Missing required parameters: rp.id, rp.name",
            by simp [androidCreate, hch, hrpi]⟩
      | some rpId =>
        cases hrpn : call.rp.bind JSRp.name with
        | none =>
            exact ⟨"Missing required parameters: rp.id, rp.name",
              by simp [androidCreate, hch, hrpi, hrpn]⟩
        | some rpName =>
          cases hui : call.user.bind JSUser.id with
          | none =>
              exact ⟨"Missing required parameters: user.id, user.name, user.displayName",
                by simp [androidCreate, hch, hrpi, hrpn, hui]⟩
          | some uid =>
            cases hun : call.user.bind JSUser.name with
            | none =>
                exact ⟨"Missing required parameters: user.id, user.name, user.displayName",
                  by simp [androidCreate, hch, hrpi, hrpn, hui, hun]⟩
            | some un =>
              cases hud : call.user.bind JSUser.displayName with
              | none =>
                  exact ⟨"Missing required parameters: user.id, user.name, user.displayName",
                    by simp [androidCreate, hch, hrpi, hrpn, hui, hun, hud]⟩
              | some ud =>
                  rcases h with h | h | h | h | h | h <;>
                    simp [hch, hrpi, hrpn, hui, hun, hud] at h

/-- Claim C3 witness: both validation branches fired at concrete calls
with a missing `challenge`. -/
theorem claim_c3_required_fields_witness :
    (∃ msg, iosCreate { ref := 0, challenge := none } iosClearedState
      = (.rejectedCall msg "invalidRequest", iosClearedState))
    ∧ ∃ msg, androidCreate { challenge := none } = .rejectedCall msg "invalidRequest" :=
  ⟨claim_c3_required_fields.1 { ref := 0, challenge := none } iosClearedState (Or.inl rfl),
   claim_c3_required_fields.2 { challenge := none } (Or.inl rfl)⟩

/-! ### Claim C4 -/

/-- Concrete `create` options exercising a partial
`authenticatorSelection`. -/
def c4Options : CreatePasskeyOptions :=
  { challenge := "AQID"
    rp := { id := "example.com", name := "Example" }
    user := { id := "AQ", name := "a@b.com", displayName := "A" }
    authenticatorSelection := some { userVerification := some "preferred" } }

/-- The creation options web.ts builds for `c4Options`. -/
def c4Creation : WebCreationOptions :=
  { challenge := [1, 2, 3]
    rp := { id := "example.com", name := "Example" }
    user := { id := [1], name := "a@b.com", displayName := "A" }
    pubKeyCredParams :=
      [{ type := "public-key", alg := -7 }, { type := "public-key", alg := -257 }]
    timeout := none
    authenticatorSelection :=
      { authenticatorAttachment := none, residentKey := none,
        userVerification := some "preferred" }
    attestation := some "none" }

/-- Claim C4: when `authenticatorSelection` is omitted, the web normalizer
and the Android request builder supply the full default triple
`{platform, required, required}`; when it is present, the object is
forwarded as-is, so unset sub-fields stay unset and are not filled from
the default triple. -/
theorem claim_c4_authenticator_selection :
    (∀ (o : CreatePasskeyOptions) (w : WebCreationOptions),
      toPublicKeyCredentialCreationOptions o = some w →
      (o.authenticatorSelection = none →
        w.authenticatorSelection =
          { authenticatorAttachment := some "platform"
            residentKey := some "required"
            userVerification := some "required" })
      ∧ ∀ s, o.authenticatorSelection = some s → w.authenticatorSelection = s)
    ∧ (androidBuildAuthenticatorSelection none =
        { authenticatorAttachment := some "platform"
          residentKey := some "required"
          userVerification := some "required" })
    ∧ ∀ s, androidBuildAuthenticatorSelection (some s) = s := by
  refine ⟨?_, rfl, fun s => rfl⟩
  intro o w hw
  cases hc : base64UrlToArrayBuffer o.challenge.data with
  | none => simp [toPublicKeyCredentialCreationOptions, hc] at hw
  | some cb =>
    cases hu : base64UrlToArrayBuffer o.user.id.data with
    | none => simp [toPublicKeyCredentialCreationOptions, hc, hu] at hw
    | some ub =>
      simp only [toPublicKeyCredentialCreationOptions, hc, hu, Option.some.injEq] at hw
      constructor
      · intro h0
        rw [← hw]
        simp [h0]
      · intro s hs
        rw [← hw]
        simp [hs]

/-- Claim C4 witness: the default triple and the as-is forwarding
evaluated at `c4Options` (partial selection) and at an absent selection. -/
theorem claim_c4_authenticator_selection_witness :
    toPublicKeyCredentialCreationOptions c4Options = some c4Creation
    ∧ c4Creation.authenticatorSelection =
        { authenticatorAttachment := none, residentKey := none,
          userVerification := some "preferred" }
    ∧ androidBuildAuthenticatorSelection none =
        { authenticatorAttachment := some "platform"
          residentKey := some "required"
          userVerification := some "required" } :=
  ⟨by decide,
   (claim_c4_authenticator_selection.1 c4Options c4Creation (by decide)).2
     { authenticatorAttachment := none, residentKey := none,
       userVerification := some "preferred" } rfl,
   claim_c4_authenticator_selection.2.1⟩

/-! ### Claim C5 -/

/-- Concrete `create` options with `attestation` omitted. -/
def c5Options : CreatePasskeyOptions :=
  { challenge := "AQID"
    rp := { id := "example.com", name := "Example" }
    user := { id := "AQ", name := "a@b.com", displayName := "A" } }

/-- Claim C5 counterexample: for a `create` request that omits
`attestation`, the web normalizer does not leave the field unset — it
forces the default `"none"` (`options.attestation ?? 'none'`), so the
"forwards no attestation value and forces no default" part of the claim is
false for the web adapter. -/
theorem claim_c5_counterexample :
    c5Options.attestation = none
    ∧ (toPublicKeyCredentialCreationOptions c5Options).map WebCreationOptions.attestation
      = some (some "none") := by decide

/-- Claim C5, amended: the Android request builder is a true pass-through
(the `attestation` key is present exactly when the caller supplied it, with
the caller's value); the web normalizer forwards the caller's value when
present but substitutes the default `"none"` when it is omitted. -/
theorem claim_c5_attestation :
    (∀ (challenge rpId rpName userId userName displayName : String)
        (params : Option (List PublicKeyCredentialParameters))
        (sel : Option AuthenticatorSelectionCriteria)
        (att : Option String) (t : Option Int),
      (androidCreateRequestJson challenge rpId rpName userId userName displayName
          params sel att t).attestation = att)
    ∧ ∀ (o : CreatePasskeyOptions) (w : WebCreationOptions),
        toPublicKeyCredentialCreationOptions o = some w →
        w.attestation = some (o.attestation.getD "none") := by
  refine ⟨fun _ _ _ _ _ _ _ _ _ _ => rfl, ?_⟩
  intro o w hw
  cases hc : base64UrlToArrayBuffer o.challenge.data with
  | none => simp [toPublicKeyCredentialCreationOptions, hc] at hw
  | some cb =>
    cases hu : base64UrlToArrayBuffer o.user.id.data with
    | none => simp [toPublicKeyCredentialCreationOptions, hc, hu] at hw
    | some ub =>
      simp only [toPublicKeyCredentialCreationOptions, hc, hu, Option.some.injEq] at hw
      rw [← hw]

/-- Claim C5 witness: the Android pass-through and the web defaulting
evaluated at concrete requests. -/
theorem claim_c5_attestation_witness :
    (androidCreateRequestJson "AQID" "example.com" "Example" "AQ" "a@b.com" "A"
        none none (some "direct") none).attestation = some "direct"
    ∧ toPublicKeyCredentialCreationOptions c5Options
      = some { c4Creation with authenticatorSelection :=
          { authenticatorAttachment := some "platform"
            residentKey := some "required"
            userVerification := some "required" } }
    ∧ ({ c4Creation with authenticatorSelection :=
          { authenticatorAttachment := some "platform"
            residentKey := some "required"
            userVerification := some "required" } } : WebCreationOptions).attestation
      = some "none" :=
  ⟨claim_c5_attestation.1 "AQID" "example.com" "Example" "AQ" "a@b.com" "A"
      none none (some "direct") none,
   by decide,
   claim_c5_attestation.2 c5Options _ (by decide)⟩

/-! ### Claim C6 -/

/-- Claim C6: every native failure signal meaning user cancellation or
system interruption maps to exactly the shared code `cancelled`, in all
three platform variants (web `handleWebAuthnError`, iOS `mapError`,
Android `mapCreateError` and `mapGetError`). -/
theorem claim_c6_cancellation_mapping :
    (∀ e : WebThrown, webIsCancellationSignal e = true →
      (handleWebAuthnError e).code = "cancelled")
    ∧ (∀ e : IosError, iosIsCancellationSignal e = true →
      (mapError e).1 = "cancelled")
    ∧ (∀ e : AndroidCreateError, androidCreateIsCancellationSignal e = true →
      (mapCreateError e).1 = "cancelled")
    ∧ ∀ e : AndroidGetError, androidGetIsCancellationSignal e = true →
        (mapGetError e).1 = "cancelled" := by
  refine ⟨?_, ?_, ?_, ?_⟩
  · intro e h
    cases e with
    | domException name message =>
        simp only [webIsCancellationSignal, Bool.or_eq_true, beq_iff_eq] at h
        simp only [handleWebAuthnError, if_pos h]
    | jsError message => simp [webIsCancellationSignal] at h
    | nonError => simp [webIsCancellationSignal] at h
  · intro e h
    cases e with
    | authError code d => cases code <;> simp_all [iosIsCancellationSignal, mapError]
    | plainError d => simp [iosIsCancellationSignal] at h
  · intro e h
    cases e <;> simp_all [androidCreateIsCancellationSignal, mapCreateError]
  · intro e h
    cases e <;> simp_all [androidGetIsCancellationSignal, mapGetError]

/-- Claim C6 witness: a cancellation signal of each platform variant
evaluated through its mapper. -/
theorem claim_c6_cancellation_mapping_witness :
    (handleWebAuthnError (.domException "NotAllowedError" "denied")).code = "cancelled"
    ∧ (mapError (.authError .canceled "cancel")).1 = "cancelled"
    ∧ (mapCreateError .interrupted).1 = "cancelled"
    ∧ (mapGetError .cancellation).1 = "cancelled" :=
  ⟨claim_c6_cancellation_mapping.1 (.domException "NotAllowedError" "denied") (by decide),
   claim_c6_cancellation_mapping.2.1 (.authError .canceled "cancel") (by decide),
   claim_c6_cancellation_mapping.2.2.1 .interrupted (by decide),
   claim_c6_cancellation_mapping.2.2.2 .cancellation (by decide)⟩

/-! ### Claim C7 -/

/-- A web assertion credential whose native `userHandle` is a present but
empty `ArrayBuffer`. -/
def c7Credential : WebAssertionCredential :=
  { id := "cred"
    rawId := [1]
    clientDataJSON := [2]
    authenticatorData := [3]
    signature := [4]
    userHandle := some [] }

/-- Claim C7 counterexample: the web formatter's `if (response.userHandle)`
is a JS truthiness test, and an empty `ArrayBuffer` is truthy, so an empty
byte buffer returned by the native layer is emitted as
`userHandle = ""` instead of being omitted. -/
theorem claim_c7_counterexample :
    c7Credential.userHandle = some []
    ∧ (formatGetResult c7Credential).response.userHandle = some ""
    ∧ (formatGetResult c7Credential).response.userHandle ≠ none := by decide

/-- Claim C7, amended: the iOS delegate and the Android formatter omit the
`userHandle` key when the native user handle is absent or empty, and
include it (base64url-encoded on iOS, verbatim on Android) when it is
non-empty; the web formatter omits the key only when the native value is
absent (`null`), and emits `""` for a present-but-empty buffer. -/
theorem claim_c7_user_handle :
    (∀ cred : WebAssertionCredential, cred.userHandle = none →
      (formatGetResult cred).response.userHandle = none)
    ∧ (∀ (cred : WebAssertionCredential) (b : List Nat), cred.userHandle = some b →
      (formatGetResult cred).response.userHandle
        = some (String.mk (arrayBufferToBase64Url b)))
    ∧ (∀ cid cdj ad sg : List Nat,
        (iosAssertionResult cid cdj ad sg none).response.userHandle = none
        ∧ (iosAssertionResult cid cdj ad sg (some [])).response.userHandle = none)
    ∧ (∀ cid cdj ad sg d : List Nat, d ≠ [] →
        (iosAssertionResult cid cdj ad sg (some d)).response.userHandle
          = some (iosBase64UrlEncode d))
    ∧ (∀ resp : AndroidAssertionResponseJson,
        resp.userHandle = none ∨ resp.userHandle = some "" →
        (androidFormatGetResponse resp).userHandle = none)
    ∧ ∀ (resp : AndroidAssertionResponseJson) (s : String),
        resp.userHandle = some s → s ≠ "" →
        (androidFormatGetResponse resp).userHandle = some s := by
  refine ⟨?_, ?_, ?_, ?_, ?_, ?_⟩
  · intro cred h
    simp [formatGetResult, h]
  · intro cred b h
    simp [formatGetResult, h]
  · intro cid cdj ad sg
    constructor <;> simp [iosAssertionResult]
  · intro cid cdj ad sg d hd
    cases d with
    | nil => exact absurd rfl hd
    | cons x xs => simp [iosAssertionResult]
  · intro resp h
    rcases h with h | h <;> simp [androidFormatGetResponse, h]
  · intro resp s h hs
    simp [androidFormatGetResponse, h, hs]

/-- Claim C7 witness: the empty/absent/non-empty user-handle behaviours
evaluated at concrete responses on all three platforms. -/
theorem claim_c7_user_handle_witness :
    (iosAssertionResult [1] [2] [3] [4] (some [])).response.userHandle = none
    ∧ (iosAssertionResult [1] [2] [3] [4] (some [5])).response.userHandle
        = some (iosBase64UrlEncode [5])
    ∧ (androidFormatGetResponse
        { clientDataJSON := "c", authenticatorData := "a", signature := "s",
          userHandle := some "" }).userHandle = none
    ∧ (formatGetResult
        { id := "x", rawId := [1], clientDataJSON := [2], authenticatorData := [3],
          signature := [4], userHandle := none }).response.userHandle = none :=
  ⟨(claim_c7_user_handle.2.2.1 [1] [2] [3] [4]).2,
   claim_c7_user_handle.2.2.2.1 [1] [2] [3] [4] [5] (by decide),
   claim_c7_user_handle.2.2.2.2.1 _ (Or.inr rfl),
   claim_c7_user_handle.1 _ rfl⟩

/-! ### Claim C8 -/

/-- Claim C8: for the web and iOS adapters, a `get` request whose
`allowCredentials` is the empty list builds exactly the same native
ceremony request (and, on iOS, the same instance state) as a request that
omits `allowCredentials` entirely. -/
theorem claim_c8_empty_allow_credentials :
    (∀ o : GetPasskeyOptions,
      toPublicKeyCredentialRequestOptions { o with allowCredentials := some [] }
        = toPublicKeyCredentialRequestOptions { o with allowCredentials := none })
    ∧ ∀ (call : IosGetCall) (st : IosState),
        iosGet { call with allowCredentials := some [] } st
          = iosGet { call with allowCredentials := none } st := by
  constructor
  · intro o
    cases hc : base64UrlToArrayBuffer o.challenge.data <;>
      simp [toPublicKeyCredentialRequestOptions, hc]
  · intro call st
    cases hch : call.challenge with
    | none => simp [iosGet, hch]
    | some ch =>
      cases hrp : call.rpId with
      | none => simp [iosGet, hch, hrp]
      | some rpId =>
        cases hcd : iosBase64UrlDecode ch <;>
          simp [iosGet, hch, hrp, hcd, List.filterMap]

/-! ### Claim C9 -/

/-- Claim C9: `isSupported` never rejects on any platform variant, and an
exception raised during the availability probe is absorbed: the web check
resolves with `platformAuthenticatorAvailable = false`, the Android check
resolves with `hasPlayServices = false` (hence `supported = false`). -/
theorem claim_c9_is_supported_never_rejects :
    (∀ env : WebEnv, (webIsSupported env).isResolved = true)
    ∧ (∀ env : AndroidEnv, (androidIsSupported env).isResolved = true)
    ∧ (∀ env : IosEnv, (iosIsSupported env).isResolved = true)
    ∧ (∀ env : WebEnv, env.uvpaCall = .error () →
        webIsSupported env = .resolved
          { supported :=
              env.hasWindow && env.hasPublicKeyCredential && env.hasNavigatorCredentials
            platformAuthenticatorAvailable := false })
    ∧ ∀ env : AndroidEnv, env.playServicesProbe = .error () →
        androidIsSupported env = .resolved
          { supported := false
            details :=
              { osVersion := env.osRelease
                apiLevel := env.sdkInt
                platformAuthenticatorAvailable := false
                hasPlayServices := false } } := by
  refine ⟨?_, ?_, ?_, ?_, ?_⟩
  · intro env
    simp [webIsSupported, CallOutcome.isResolved]
  · intro env
    simp [androidIsSupported, CallOutcome.isResolved]
  · intro env
    by_cases h : env.ios16Available <;> simp [iosIsSupported, h, CallOutcome.isResolved]
  · intro env h
    simp [webIsSupported, h]
  · intro env h
    simp [androidIsSupported, h]

/-- Claim C9 witness: a throwing availability probe evaluated on the web
and Android checks. -/
theorem claim_c9_is_supported_never_rejects_witness :
    webIsSupported
      { hasWindow := true, hasPublicKeyCredential := true,
        hasNavigatorCredentials := true, hasUvpaFunction := true,
        uvpaCall := .error () }
      = .resolved { supported := true, platformAuthenticatorAvailable := false }
    ∧ androidIsSupported
        { sdkInt := 34, osRelease := "14", playServicesProbe := .error () }
      = .resolved
          { supported := false
            details :=
              { osVersion := "14", apiLevel := 34,
                platformAuthenticatorAvailable := false, hasPlayServices := false } } :=
  ⟨claim_c9_is_supported_never_rejects.2.2.2.1 _ rfl,
   claim_c9_is_supported_never_rejects.2.2.2.2 _ rfl⟩

/-! ### Claim C10 -/

/-- Claim C10: on iOS, a `create` or `get` whose `challenge` (or, for
`create`, `user.id`) is present but not decodable base64url is rejected
with code `invalidRequest` before any native authorization request is
issued, and the pending-call and controller slots are left exactly as they
were (nothing is stored). -/
theorem claim_c10_invalid_base64url :
    (∀ (call : IosCreateCall) (st : IosState) (ch : String),
      call.challenge = some ch → iosBase64UrlDecode ch = none →
      ∃ msg, iosCreate call st = (.rejectedCall msg "invalidRequest", st))
    ∧ (∀ (call : IosCreateCall) (st : IosState) (uid : String),
      call.user.bind JSUser.id = some uid → iosBase64UrlDecode uid = none →
      ∃ msg, iosCreate call st = (.rejectedCall msg "invalidRequest", st))
    ∧ ∀ (call : IosGetCall) (st : IosState) (ch : String),
        call.challenge = some ch → iosBase64UrlDecode ch = none →
        ∃ msg, iosGet call st = (.rejectedCall msg "invalidRequest", st) := by
  refine ⟨?_, ?_, ?_⟩
  · intro call st ch hch hdec
    cases hrp : call.rp.bind JSRp.id with
    | none =>
        exact ⟨"Missing required parameter: rp.id", by simp [iosCreate, hch, hrp]⟩
    | some rpId =>
      cases hui : call.user.bind JSUser.id with
      | none =>
          exact ⟨"Missing required parameters: user.id, user.name",
            by simp [iosCreate, hch, hrp, hui]⟩
      | some uid =>
        cases hun : call.user.bind JSUser.name with
        | none =>
            exact ⟨"Missing required parameters: user.id, user.name",
              by simp [iosCreate, hch, hrp, hui, hun]⟩
        | some un =>
            exact ⟨"Invalid base64url encoding for challenge",
              by simp [iosCreate, hch, hrp, hui, hun, hdec]⟩
  · intro call st uid hui hdec
    cases hch : call.challenge with
    | none =>
        exact ⟨"Missing required parameter: challenge", by simp [iosCreate, hch]⟩
    | some ch =>
      cases hrp : call.rp.bind JSRp.id with
      | none =>
          exact ⟨"Missing required parameter: rp.id", by simp [iosCreate, hch, hrp]⟩
      | some rpId =>
        cases hun : call.user.bind JSUser.name with
        | none =>
            exact ⟨"Missing required parameters: user.id, user.name",
              by simp [iosCreate, hch, hrp, hui, hun]⟩
        | some un =>
          cases hcd : iosBase64UrlDecode ch with
          | none =>
              exact ⟨"Invalid base64url encoding for challenge",
                by simp [iosCreate, hch, hrp, hui, hun, hcd]⟩
          | some cd =>
              exact ⟨"Invalid base64url encoding for user.id",
                by simp [iosCreate, hch, hrp, hui, hun, hcd, hdec]⟩
  · intro call st ch hch hdec
    cases hrp : call.rpId with
    | none =>
        exact ⟨"Missing required parameter: rpId", by simp [iosGet, hch, hrp]⟩
    | some rpId =>
        exact ⟨"Invalid base64url encoding for challenge",
          by simp [iosGet, hch, hrp, hdec]⟩

/-- Claim C10 witness: undecodable base64url inputs (`"%"`) evaluated
through `create` (challenge and user.id variants) and `get`. -/
theorem claim_c10_invalid_base64url_witness :
    (∃ msg, iosCreate
        { ref := 0, challenge := some "%",
          rp := some { id := some "example.com", name := some "Example" },
          user := some { id := some "AQ", name := some "a@b.com", displayName := some "A" } }
        iosClearedState
      = (.rejectedCall msg "invalidRequest", iosClearedState))
    ∧ (∃ msg, iosCreate
        { ref := 0, challenge := some "AQID",
          rp := some { id := some "example.com", name := some "Example" },
          user := some { id := some "%", name := some "a@b.com", displayName := some "A" } }
        iosClearedState
      = (.rejectedCall msg "invalidRequest", iosClearedState))
    ∧ ∃ msg, iosGet
        { ref := 0, challenge := some "%", rpId := some "example.com" }
        iosClearedState
      = (.rejectedCall msg "invalidRequest", iosClearedState) :=
  ⟨claim_c10_invalid_base64url.1 _ iosClearedState "%" rfl (by decide),
   claim_c10_invalid_base64url.2.1 _ iosClearedState "%" rfl (by decide),
   claim_c10_invalid_base64url.2.2 _ iosClearedState "%" rfl (by decide)⟩

end Passkeys
